import Mathlib

/-!
Verification of the InterviewSchedulingBot slot-search core.

The Python sources (autointerviewbot.py, textbasedbot.py) operate on naive
`datetime` values interpreted in one fixed local zone (IST).  We embed such a
value as a record of Nat fields (year, month, day, hour, minute, second,
microsecond) over the proleptic Gregorian calendar, exactly the calendar of
the Python `datetime` module.  Python bounds years to [1, 9999] and raises
OverflowError outside; the model leaves the upper bound open (years are
unbounded above), which is conservative for every property proved here since
no claim concerns the year-9999 overflow.  Comparison of naive datetimes in
Python is chronological order, realised here through the linearisation
`toLin` (microseconds on the proleptic Gregorian time line); on valid
records this coincides with the field-lexicographic order Python uses.

Fallible Python operations (the `datetime` constructor and `replace`, which
raise ValueError on out-of-range fields, and the remote free/busy query,
which may raise on network or auth failure) are embedded in `Except PyErr`.
The external Google Calendar service is modelled as an oracle function from
an email and an IST interval to the busy-interval list; the UTC boundary
serialisation performed inside `get_busy_slots` (`to_utc`, an offset
subtraction applied once per boundary call) does not affect emptiness of the
returned busy list, which is the only thing the search inspects, so it is
absorbed into the oracle function.
-/

def usPerSecond : Nat := 1000000

def usPerMinute : Nat := 60000000

def usPerHour : Nat := 3600000000

def usPerDay : Nat := 86400000000

/-- Gregorian leap-year rule, as in the Python `calendar` module. -/
def isLeap (y : Nat) : Bool :=
  (y % 4 == 0 && y % 100 != 0) || (y % 400 == 0)

/-- Length of a month in the proleptic Gregorian calendar. -/
def daysInMonth (y m : Nat) : Nat :=
  match m with
  | 2 => if isLeap y then 29 else 28
  | 4 => 30
  | 6 => 30
  | 9 => 30
  | 11 => 30
  | _ => 31

/-- Days in a common year strictly before month m. -/
def daysBeforeMonthCommon (m : Nat) : Nat :=
  match m with
  | 1 => 0
  | 2 => 31
  | 3 => 59
  | 4 => 90
  | 5 => 120
  | 6 => 151
  | 7 => 181
  | 8 => 212
  | 9 => 243
  | 10 => 273
  | 11 => 304
  | 12 => 334
  | _ => 365

/-- Days in year y strictly before month m. -/
def daysBeforeMonth (y m : Nat) : Nat :=
  daysBeforeMonthCommon m + (if 3 ≤ m then (if isLeap y then 1 else 0) else 0)

/-- Days strictly before January 1 of year y, counted from 0001-01-01; the
standard rata-die count also used by Python `date.toordinal`. -/
def daysBeforeYear (y : Nat) : Nat :=
  365 * (y - 1) + (y - 1) / 4 + (y - 1) / 400 - (y - 1) / 100

/-- A naive civil timestamp, the embedding of a Python naive `datetime`. -/
structure DateTime where
  year : Nat
  month : Nat
  day : Nat
  hour : Nat
  minute : Nat
  second : Nat
  usec : Nat
deriving DecidableEq

/-- Rata-die ordinal of the date part, matching Python `date.toordinal`
(0001-01-01 has ordinal 1). -/
def toOrdinal (t : DateTime) : Nat :=
  daysBeforeYear t.year + daysBeforeMonth t.year t.month + t.day

/-- Day of week, Monday = 0 through Sunday = 6, matching Python
`date.weekday` (0001-01-01 was a Monday). -/
def weekday (t : DateTime) : Nat :=
  (toOrdinal t + 6) % 7

/-- Microseconds since midnight of the day of t. -/
def todUs (t : DateTime) : Nat :=
  t.hour * usPerHour + t.minute * usPerMinute + t.second * usPerSecond + t.usec

/-- Linearisation: microseconds on the proleptic Gregorian time line.  On
valid records this realises chronological order, which is how Python
compares naive datetimes. -/
def toLin (t : DateTime) : Nat :=
  toOrdinal t * usPerDay + todUs t

/-- Field ranges accepted by the Python `datetime` constructor (with the
upper year bound left open, see module comment). -/
def Valid (t : DateTime) : Prop :=
  1 ≤ t.year ∧ 1 ≤ t.month ∧ t.month ≤ 12 ∧ 1 ≤ t.day ∧
    t.day ≤ daysInMonth t.year t.month ∧ t.hour ≤ 23 ∧ t.minute ≤ 59 ∧
    t.second ≤ 59 ∧ t.usec ≤ 999999

instance (t : DateTime) : Decidable (Valid t) := by
  unfold Valid; infer_instance

/-- The day after t, keeping the time of day: the effect of adding
`timedelta(days=1)` to a Python datetime. -/
def succDay (t : DateTime) : DateTime :=
  if t.day < daysInMonth t.year t.month then { t with day := t.day + 1 }
  else if t.month < 12 then { t with month := t.month + 1, day := 1 }
  else { t with year := t.year + 1, month := 1, day := 1 }

/-- The effect of `.replace(hour := h, minute=0, second=0, microsecond=0)`. -/
def setTime (t : DateTime) (h : Nat) : DateTime :=
  { t with hour := h, minute := 0, second := 0, usec := 0 }

/-- The effect of adding `timedelta(hours=1)` to a Python datetime. -/
def addHour (t : DateTime) : DateTime :=
  if t.hour < 23 then { t with hour := t.hour + 1 }
  else { succDay t with hour := 0 }

namespace autointerviewbot

/-- The first while loop of clamp_to_working_hours: while the weekday is
Saturday or Sunday, advance one day and reset the time of day to 09:00.
The Python loop is a while loop; since each pass advances the weekday
cyclically by one, it runs at most twice on a valid input, so it is embedded
with an explicit fuel that strictly dominates the iteration count (the exit
lemma below shows the loop guard is false at the result, i.e. the fuel is
never exhausted mid-loop). -/
def weekendLoopReset : Nat → DateTime → DateTime
  | 0, t => t
  | fuel + 1, t =>
    if 5 ≤ weekday t then weekendLoopReset fuel (setTime (succDay t) 9) else t

/-- The inner while loop of the hour >= 19 branch: advance whole days (no
time-of-day reset) while the weekday is Saturday or Sunday.  Same fuel
convention as weekendLoopReset. -/
def weekendSkip : Nat → DateTime → DateTime
  | 0, t => t
  | fuel + 1, t => if 5 ≤ weekday t then weekendSkip fuel (succDay t) else t

/-- Embedding of clamp_to_working_hours (autointerviewbot.py, lines 52-67):
clamps to Monday-Friday, 9 AM to 7 PM. -/
def clamp_to_working_hours (t : DateTime) : DateTime :=
  let t1 := weekendLoopReset 7 t
  if t1.hour < 9 then setTime t1 9
  else if 19 ≤ t1.hour then setTime (weekendSkip 7 (succDay t1)) 9
  else t1

end autointerviewbot

/-- Embedded Python exceptions: valueError for datetime construction and
replace failures, queryError for a failing remote free/busy query. -/
inductive PyErr where
  | valueError : PyErr
  | queryError : PyErr
deriving DecidableEq

/-- The external calendar service, as seen through get_busy_slots: one
identity (email) and one IST interval in, the busy-interval list out, or a
query error. -/
abbrev Service := String → DateTime → DateTime → Except PyErr (List (DateTime × DateTime))

/-- The Python datetime constructor: validates field ranges, raising
ValueError when a field is out of range (notably a day beyond the length of
the month). -/
def pymk (y mo d h mi s us : Nat) : Except PyErr DateTime :=
  if Valid ⟨y, mo, d, h, mi, s, us⟩ then Except.ok ⟨y, mo, d, h, mi, s, us⟩
  else Except.error PyErr.valueError

/-- The current real moment reinterpreted in year 2025, preserving month,
day, hour, minute, second, microsecond: the value of virtual_2025 in
clamp_to_future_2025 when its construction succeeds. -/
def virtualOf (now : DateTime) : DateTime :=
  ⟨2025, now.month, now.day, now.hour, now.minute, now.second, now.usec⟩

namespace autointerviewbot

def RECRUITER_EMAIL : String := "bvsuyameendra@gmail.com"

def CANDIDATE_EMAIL : String := "manchemvishnusrikar@gmail.com"

/-- Embedding of get_busy_slots (autointerviewbot.py, lines 32-44): queries
the external service for the busy intervals of one email over an IST
interval.  The UTC conversion performed by to_utc before the remote call is
a boundary serialisation absorbed into the service function, see the module
comment. -/
def get_busy_slots (service : Service) (email : String)
    (start_ist end_ist : DateTime) : Except PyErr (List (DateTime × DateTime)) :=
  service email start_ist end_ist

/-- Embedding of is_slot_free_for_both (autointerviewbot.py, lines 46-50):
both parties are free iff both busy lists come back empty; a query error on
either propagates. -/
def is_slot_free_for_both (service : Service) (recruiter candidate : String)
    (start_ist end_ist : DateTime) : Except PyErr Bool :=
  match get_busy_slots service recruiter start_ist end_ist with
  | Except.error err => Except.error err
  | Except.ok recruiter_busy =>
    match get_busy_slots service candidate start_ist end_ist with
    | Except.error err => Except.error err
    | Except.ok candidate_busy =>
      Except.ok (recruiter_busy.isEmpty && candidate_busy.isEmpty)

/-- Embedding of clamp_to_future_2025 (autointerviewbot.py, lines 69-98).
The ambient current moment now (the value of get_now_ist()) is passed as an
explicit argument.  The replace(year=2025) call and the datetime
construction for virtual_2025 validate like the Python constructor and
raise ValueError otherwise; the comparison is chronological. -/
def clamp_to_future_2025 (now ist_dt : DateTime) : Except PyErr DateTime :=
  match (if ist_dt.year < 2025 then
      pymk 2025 ist_dt.month ist_dt.day ist_dt.hour ist_dt.minute ist_dt.second ist_dt.usec
    else Except.ok ist_dt) with
  | Except.error e => Except.error e
  | Except.ok t1 =>
    match pymk 2025 now.month now.day now.hour now.minute now.second now.usec with
    | Except.error e => Except.error e
    | Except.ok virtual_2025 =>
      Except.ok (if toLin t1 < toLin virtual_2025 then virtual_2025 else t1)

/-- The bounded scanning loop of find_first_free_slot, with the remaining
attempt budget as the recursion fuel; the Python loop counts attempts
upward against max_attempts = 3000 and find_first_free_slot below starts
the loop with that budget. -/
def findLoop (service : Service) (now : DateTime) :
    Nat → DateTime → Except PyErr (Option DateTime)
  | 0, _ => Except.ok none
  | fuel + 1, current =>
    match clamp_to_future_2025 now current with
    | Except.error e => Except.error e
    | Except.ok c1 =>
      match is_slot_free_for_both service RECRUITER_EMAIL CANDIDATE_EMAIL
          (clamp_to_working_hours c1) (addHour (clamp_to_working_hours c1)) with
      | Except.error e => Except.error e
      | Except.ok free =>
        if free then Except.ok (some (clamp_to_working_hours c1))
        else findLoop service now fuel (addHour (clamp_to_working_hours c1))

/-- Embedding of find_first_free_slot (autointerviewbot.py, lines 100-121):
searches forward hour by hour from start_ist, re-applying both clamps every
iteration, until a free 1-hour slot is found or the budget of 3000 busy
probes is exhausted, in which case it returns None. -/
def find_first_free_slot (service : Service) (now start_ist : DateTime) :
    Except PyErr (Option DateTime) :=
  findLoop service now 3000 start_ist

end autointerviewbot

namespace textbasedbot

def RECRUITER_EMAIL : String := "bvsuyameendra@gmail.com"

def CANDIDATE_EMAIL : String := "manchemvishnusrikar@gmail.com"

/-- Embedding of get_busy_slots (textbasedbot.py, lines 60-71); same
boundary modelling as in autointerviewbot. -/
def get_busy_slots (service : Service) (email : String)
    (start_ist end_ist : DateTime) : Except PyErr (List (DateTime × DateTime)) :=
  service email start_ist end_ist

/-- Embedding of is_slot_free_for_both (textbasedbot.py, lines 73-77). -/
def is_slot_free_for_both (service : Service) (recruiter candidate : String)
    (start_ist end_ist : DateTime) : Except PyErr Bool :=
  match get_busy_slots service recruiter start_ist end_ist with
  | Except.error err => Except.error err
  | Except.ok r_busy =>
    match get_busy_slots service candidate start_ist end_ist with
    | Except.error err => Except.error err
    | Except.ok c_busy =>
      Except.ok (r_busy.isEmpty && c_busy.isEmpty)

/-- The effect of `.replace(minute=0, second=0, microsecond=0)`. -/
def zeroSub (t : DateTime) : DateTime :=
  { t with minute := 0, second := 0, usec := 0 }

/-- The first two lines of find_1hr_slot_within_range: round the candidate
start down to the hour, then advance one hour if that moved it backward. -/
def normalizeStart (candidate_start : DateTime) : DateTime :=
  if toLin (zeroSub candidate_start) < toLin candidate_start then
    addHour (zeroSub candidate_start)
  else zeroSub candidate_start

/-- Fuel bound for the while loop of find_1hr_slot_within_range: the loop
advances current by one hour per iteration and only continues while
current + 1 hour <= candidate_end, so this many iterations always suffice
(slotLoop_stable below shows the result does not depend on fuel past the
bound, i.e. the fuel embedding is faithful to the unbounded while loop). -/
def hoursFuel (candidate_end : DateTime) : Nat :=
  toLin candidate_end / usPerHour + 1

/-- The while loop of find_1hr_slot_within_range (textbasedbot.py, lines
85-93). -/
def slotLoop (service : Service) (candidate_end : DateTime) :
    Nat → DateTime → Except PyErr (Option (DateTime × DateTime))
  | 0, _ => Except.ok none
  | fuel + 1, current =>
    if toLin (addHour current) ≤ toLin candidate_end then
      match is_slot_free_for_both service RECRUITER_EMAIL CANDIDATE_EMAIL current
          (addHour current) with
      | Except.error e => Except.error e
      | Except.ok free =>
        if free then Except.ok (some (current, addHour current))
        else slotLoop service candidate_end fuel (addHour current)
    else Except.ok none

/-- Embedding of find_1hr_slot_within_range (textbasedbot.py, lines 79-96):
hour-aligned scan of [candidate_start, candidate_end) for the first 1-hour
slot free for both, with no working-hours or future clamping. -/
def find_1hr_slot_within_range (service : Service)
    (candidate_start candidate_end : DateTime) :
    Except PyErr (Option (DateTime × DateTime)) :=
  slotLoop service candidate_end (hoursFuel candidate_end)
    (normalizeStart candidate_start)

/-- Modelled from the spec, section 4.4: normalize rangeStart to the start
of its hour, rounding up to the next exact hour boundary when it has a
nonzero minute, second or microsecond component. -/
def specNormalizedStart (rangeStart : DateTime) : DateTime :=
  if rangeStart.minute = 0 ∧ rangeStart.second = 0 ∧ rangeStart.usec = 0 then rangeStart
  else addHour (zeroSub rangeStart)

/-- Modelled from the spec, section 4.4: iterate current from the
normalized start while current + 1 hour <= rangeEnd, testing each slot
[current, current + 1 hour) through the oracle, returning the first success
and NotFound when the loop completes; no clamping of any probed slot. -/
def specRangeLoop (service : Service) (rangeEnd : DateTime) :
    Nat → DateTime → Except PyErr (Option (DateTime × DateTime))
  | 0, _ => Except.ok none
  | fuel + 1, current =>
    if toLin (addHour current) ≤ toLin rangeEnd then
      match is_slot_free_for_both service RECRUITER_EMAIL CANDIDATE_EMAIL current
          (addHour current) with
      | Except.error e => Except.error e
      | Except.ok free =>
        if free then Except.ok (some (current, addHour current))
        else specRangeLoop service rangeEnd fuel (addHour current)
    else Except.ok none

/-- Modelled from the spec, section 4.4: the reference range-constrained
search, composed of the two spec definitions above. -/
def rangeSearchSpec (service : Service) (rangeStart rangeEnd : DateTime) :
    Except PyErr (Option (DateTime × DateTime)) :=
  specRangeLoop service rangeEnd (hoursFuel rangeEnd) (specNormalizedStart rangeStart)

end textbasedbot

namespace autointerviewbot

/-- Modelled from the spec, section 4.1: while t.weekday is Saturday or
Sunday, advance t by one full day and reset the time of day to 09:00.  Same
fuel convention as the loops of the code embedding. -/
def specWeekendLoop : Nat → DateTime → DateTime
  | 0, t => t
  | fuel + 1, t =>
    if 5 ≤ weekday t then specWeekendLoop fuel (setTime (succDay t) 9) else t

/-- Modelled from the spec, section 4.1: the reference case split for
clampToWorkingHours: while weekend, advance one day resetting to 09:00;
else if hour < 9, set the time of day to 09:00 on the same day; else if
hour >= 19, advance to the next day at 09:00 and re-apply the weekend-skip
loop; else return t unchanged. -/
def clampSpec (t : DateTime) : DateTime :=
  if 5 ≤ weekday t then specWeekendLoop 7 t
  else if t.hour < 9 then setTime t 9
  else if 19 ≤ t.hour then specWeekendLoop 7 (setTime (succDay t) 9)
  else t

end autointerviewbot

/-- Monday 2025-06-02 12:00:00, a concrete stand-in for the ambient current
moment get_now_ist(). -/
def now0 : DateTime := ⟨2025, 6, 2, 12, 0, 0, 0⟩

/-- Monday 2025-01-06 10:00:00: inside business hours but chronologically
before now0. -/
def seedBiz : DateTime := ⟨2025, 1, 6, 10, 0, 0, 0⟩

/-- Tuesday 2025-06-03 10:00:00: inside business hours and after now0. -/
def seedTue : DateTime := ⟨2025, 6, 3, 10, 0, 0, 0⟩

/-- 2024-02-29 10:00:00: February 29 of a leap year before 2025. -/
def seedFeb : DateTime := ⟨2024, 2, 29, 10, 0, 0, 0⟩

/-- Saturday 2025-06-07 20:30:00: weekend and after hours. -/
def satEve : DateTime := ⟨2025, 6, 7, 20, 30, 0, 0⟩

/-- An oracle reporting every identity free on every interval. -/
def allFreeSvc : Service := fun _ _ _ => Except.ok []

/-- An oracle reporting every identity busy on every interval. -/
def allBusySvc : Service := fun _ _ _ =>
  Except.ok [(⟨2025, 1, 1, 0, 0, 0, 0⟩, ⟨2025, 1, 1, 1, 0, 0, 0⟩)]

/-- An oracle whose query succeeds for the recruiter and raises for the
candidate (the second identity queried). -/
def secondErrSvc : Service := fun email _ _ =>
  if email = "manchemvishnusrikar@gmail.com" then Except.error PyErr.queryError
  else Except.ok []

/-- An oracle whose query raises for the recruiter (the first identity
queried) and succeeds for the candidate. -/
def firstErrSvc : Service := fun email _ _ =>
  if email = "bvsuyameendra@gmail.com" then Except.error PyErr.queryError
  else Except.ok []

/-- 2025-03-24 13:40:00, the range start of the spec scenario. -/
def rs0 : DateTime := ⟨2025, 3, 24, 13, 40, 0, 0⟩

/-- 2025-03-24 16:00:00, the range end of the spec scenario. -/
def re0 : DateTime := ⟨2025, 3, 24, 16, 0, 0, 0⟩

theorem isLeap_iff (y : Nat) :
    isLeap y = true ↔ (y % 4 = 0 ∧ y % 100 ≠ 0) ∨ y % 400 = 0 := by
  simp [isLeap]

theorem daysInMonth_pos (y m : Nat) : 1 ≤ daysInMonth y m := by
  unfold daysInMonth
  split <;> first | omega | (split <;> omega)

theorem daysInMonth_le (y m : Nat) : daysInMonth y m ≤ 31 := by
  unfold daysInMonth
  split <;> first | omega | (split <;> omega)

theorem daysBeforeMonth_succ (y m : Nat) (h1 : 1 ≤ m) (h2 : m ≤ 11) :
    daysBeforeMonth y (m + 1) = daysBeforeMonth y m + daysInMonth y m := by
  interval_cases m <;>
    cases h : isLeap y <;>
      simp [daysBeforeMonth, daysBeforeMonthCommon, daysInMonth, h]

theorem daysBeforeYear_succ (y : Nat) (hy : 1 ≤ y) :
    daysBeforeYear (y + 1) = daysBeforeYear y + (if isLeap y then 366 else 365) := by
  obtain ⟨k, rfl⟩ : ∃ k, y = k + 1 := ⟨y - 1, by omega⟩
  unfold daysBeforeYear
  cases h : isLeap (k + 1)
  · have hmA : (k + 1) % 4 ≠ 0 ∨ (k + 1) % 100 = 0 := by
      by_cases c4 : (k + 1) % 4 = 0
      · by_cases c100 : (k + 1) % 100 = 0
        · exact Or.inr c100
        · exfalso
          have hL : isLeap (k + 1) = true := (isLeap_iff _).mpr (Or.inl ⟨c4, c100⟩)
          rw [h] at hL
          exact Bool.noConfusion hL
      · exact Or.inl c4
    have hmB : (k + 1) % 400 ≠ 0 := by
      intro c400
      have hL : isLeap (k + 1) = true := (isLeap_iff _).mpr (Or.inr c400)
      rw [h] at hL
      exact Bool.noConfusion hL
    rw [if_neg (by simp)]
    simp only [Nat.add_sub_cancel]
    rcases hmA with hA | hA <;> omega
  · have hm := (isLeap_iff _).mp h
    rw [if_pos rfl]
    simp only [Nat.add_sub_cancel]
    rcases hm with ⟨hA, hB⟩ | hB <;> omega
theorem succDay_hour (t : DateTime) : (succDay t).hour = t.hour := by
  unfold succDay
  split
  · rfl
  · split <;> rfl

theorem succDay_minute (t : DateTime) : (succDay t).minute = t.minute := by
  unfold succDay
  split
  · rfl
  · split <;> rfl

theorem succDay_second (t : DateTime) : (succDay t).second = t.second := by
  unfold succDay
  split
  · rfl
  · split <;> rfl

theorem succDay_usec (t : DateTime) : (succDay t).usec = t.usec := by
  unfold succDay
  split
  · rfl
  · split <;> rfl

theorem succDay_year_le (t : DateTime) : t.year ≤ (succDay t).year := by
  unfold succDay
  split
  · exact Nat.le_refl _
  · split
    · exact Nat.le_refl _
    · exact Nat.le_succ _

theorem todUs_succDay (t : DateTime) : todUs (succDay t) = todUs t := by
  unfold todUs
  rw [succDay_hour, succDay_minute, succDay_second, succDay_usec]

theorem succDay_valid (t : DateTime) (ht : Valid t) : Valid (succDay t) := by
  obtain ⟨h1, h2, h3, h4, h5, h6, h7, h8, h9⟩ := ht
  unfold succDay
  split
  · unfold Valid
    dsimp only
    omega
  · split
    · have hp := daysInMonth_pos t.year (t.month + 1)
      unfold Valid
      dsimp only
      omega
    · have hp : daysInMonth (t.year + 1) 1 = 31 := rfl
      unfold Valid
      dsimp only
      omega

theorem toOrdinal_succDay (t : DateTime) (ht : Valid t) :
    toOrdinal (succDay t) = toOrdinal t + 1 := by
  obtain ⟨h1, h2, h3, h4, h5, h6, h7, h8, h9⟩ := ht
  unfold succDay toOrdinal
  split
  · dsimp only
    omega
  · split
    · have hm : t.month ≤ 11 := by omega
      have hstep := daysBeforeMonth_succ t.year t.month h2 hm
      dsimp only
      omega
    · rename_i hc1 hc2
      have hm : t.month = 12 := by omega
      have hy := daysBeforeYear_succ t.year h1
      have hdim : daysInMonth t.year t.month = 31 := by rw [hm]; rfl
      have hd : t.day = 31 := by omega
      have hb12 : daysBeforeMonth t.year 12 = 334 + (if isLeap t.year then 1 else 0) := by
        simp [daysBeforeMonth, daysBeforeMonthCommon]
      have hb1 : daysBeforeMonth (t.year + 1) 1 = 0 := by
        simp [daysBeforeMonth, daysBeforeMonthCommon]
      dsimp only
      rw [hb1, hy, hm, hb12, hd]
      cases hL : isLeap t.year <;> simp [hL]

theorem weekday_succDay (t : DateTime) (ht : Valid t) :
    weekday (succDay t) = (weekday t + 1) % 7 := by
  unfold weekday
  rw [toOrdinal_succDay t ht]
  omega

theorem weekday_lt_7 (t : DateTime) : weekday t < 7 := by
  unfold weekday
  omega

theorem setTime_weekday (t : DateTime) (h : Nat) : weekday (setTime t h) = weekday t := rfl

theorem setTime_ordinal (t : DateTime) (h : Nat) : toOrdinal (setTime t h) = toOrdinal t := rfl

theorem setTime_valid (t : DateTime) (h : Nat) (ht : Valid t) (hh : h ≤ 23) :
    Valid (setTime t h) := by
  obtain ⟨h1, h2, h3, h4, h5, h6, h7, h8, h9⟩ := ht
  unfold setTime Valid
  dsimp only
  omega

theorem todUs_lt (t : DateTime) (ht : Valid t) : todUs t < usPerDay := by
  obtain ⟨h1, h2, h3, h4, h5, h6, h7, h8, h9⟩ := ht
  unfold todUs usPerHour usPerMinute usPerSecond usPerDay
  omega

theorem todUs_setTime (t : DateTime) (h : Nat) : todUs (setTime t h) = h * usPerHour := by
  unfold todUs setTime
  dsimp only
  omega

theorem toLin_succDay (t : DateTime) (ht : Valid t) :
    toLin (succDay t) = toLin t + usPerDay := by
  unfold toLin
  rw [toOrdinal_succDay t ht, todUs_succDay]
  ring

theorem addHour_valid (t : DateTime) (ht : Valid t) : Valid (addHour t) := by
  unfold addHour
  split
  · obtain ⟨h1, h2, h3, h4, h5, h6, h7, h8, h9⟩ := ht
    unfold Valid
    dsimp only
    omega
  · have hs := succDay_valid t ht
    obtain ⟨h1, h2, h3, h4, h5, h6, h7, h8, h9⟩ := hs
    unfold Valid
    dsimp only
    omega

theorem toLin_addHour (t : DateTime) (ht : Valid t) :
    toLin (addHour t) = toLin t + usPerHour := by
  unfold addHour
  split
  · unfold toLin toOrdinal todUs
    dsimp only
    unfold usPerHour
    ring
  · have hh : t.hour = 23 := by
      obtain ⟨h1, h2, h3, h4, h5, h6, h7, h8, h9⟩ := ht
      omega
    have hord : toOrdinal { succDay t with hour := 0 } = toOrdinal (succDay t) := rfl
    have htod : todUs { succDay t with hour := 0 } =
        t.minute * usPerMinute + t.second * usPerSecond + t.usec := by
      unfold todUs
      dsimp only
      rw [succDay_minute, succDay_second, succDay_usec]
      unfold usPerHour
      omega
    unfold toLin
    rw [hord, htod, toOrdinal_succDay t ht]
    unfold todUs usPerDay usPerHour usPerMinute usPerSecond
    rw [hh]
    ring_nf

theorem addHour_year_le (t : DateTime) : t.year ≤ (addHour t).year := by
  unfold addHour
  split
  · exact Nat.le_refl _
  · exact succDay_year_le t

theorem toLin_le_setTime9_succDay (t : DateTime) (ht : Valid t) :
    toLin t ≤ toLin (setTime (succDay t) 9) := by
  unfold toLin
  rw [setTime_ordinal, toOrdinal_succDay t ht, todUs_setTime]
  have := todUs_lt t ht
  unfold usPerDay usPerHour at *
  omega

theorem daysBeforeMonth_day_le (t : DateTime) (ht : Valid t) :
    daysBeforeMonth t.year t.month + t.day ≤ 365 + (if isLeap t.year then 1 else 0) := by
  obtain ⟨y, mo, d, h, mi, s, us⟩ := t
  obtain ⟨h1, h2, h3, h4, h5, h6, h7, h8, h9⟩ := ht
  dsimp only at *
  interval_cases mo <;>
    cases hL : isLeap y <;>
      simp [daysBeforeMonth, daysBeforeMonthCommon, daysInMonth, hL] at * <;>
        omega

theorem daysBeforeYear_mono (y y2 : Nat) (h1 : 1 ≤ y) (h2 : y ≤ y2) :
    daysBeforeYear y ≤ daysBeforeYear y2 := by
  obtain ⟨k, rfl⟩ : ∃ k, y2 = y + k := ⟨y2 - y, by omega⟩
  clear h2
  induction k with
  | zero => exact Nat.le_refl _
  | succ n ih =>
    have hstep := daysBeforeYear_succ (y + n) (by omega)
    rw [show y + (n + 1) = y + n + 1 from rfl, hstep]
    cases isLeap (y + n) <;> simp <;> omega

theorem toOrdinal_lt_of_year_lt (a b : DateTime) (ha : Valid a) (hb : Valid b)
    (h : a.year < b.year) : toOrdinal a < toOrdinal b := by
  have h1 := daysBeforeMonth_day_le a ha
  have h2 : daysBeforeYear (a.year + 1) =
      daysBeforeYear a.year + (if isLeap a.year then 366 else 365) :=
    daysBeforeYear_succ a.year ha.1
  have h3 : daysBeforeYear (a.year + 1) ≤ daysBeforeYear b.year :=
    daysBeforeYear_mono (a.year + 1) b.year (by omega) (by omega)
  have h4 : 1 ≤ b.day := hb.2.2.2.1
  unfold toOrdinal
  cases hL : isLeap a.year <;> simp [hL] at h1 h2 <;> omega

theorem toLin_lt_of_ordinal_lt (a b : DateTime) (ha : Valid a)
    (h : toOrdinal a < toOrdinal b) : toLin a < toLin b := by
  have h1 := todUs_lt a ha
  unfold toLin usPerDay at *
  have h2 : todUs b ≥ 0 := Nat.zero_le _
  nlinarith

theorem toLin_lt_of_year_lt (a b : DateTime) (ha : Valid a) (hb : Valid b)
    (h : a.year < b.year) : toLin a < toLin b :=
  toLin_lt_of_ordinal_lt a b ha (toOrdinal_lt_of_year_lt a b ha hb h)

theorem setTime_setTime (t : DateTime) (h h2 : Nat) :
    setTime (setTime t h) h2 = setTime t h2 := rfl

theorem setTime_hour (t : DateTime) (h : Nat) : (setTime t h).hour = h := rfl

theorem setTime_year (t : DateTime) (h : Nat) : (setTime t h).year = t.year := rfl

theorem succDay_setTime (t : DateTime) (h : Nat) :
    succDay (setTime t h) = setTime (succDay t) h := by
  unfold succDay setTime
  dsimp only
  split <;> [rfl; (split <;> rfl)]

namespace autointerviewbot

theorem weekendLoopReset_succ (fuel : Nat) (t : DateTime) :
    weekendLoopReset (fuel + 1) t =
      if 5 ≤ weekday t then weekendLoopReset fuel (setTime (succDay t) 9) else t := rfl

theorem weekendSkip_succ (fuel : Nat) (t : DateTime) :
    weekendSkip (fuel + 1) t =
      if 5 ≤ weekday t then weekendSkip fuel (succDay t) else t := rfl

theorem weekendLoopReset_setTime (fuel : Nat) (u : DateTime) :
    weekendLoopReset fuel (setTime u 9) = setTime (weekendSkip fuel u) 9 := by
  induction fuel generalizing u with
  | zero => rfl
  | succ n ih =>
    rw [weekendLoopReset_succ, weekendSkip_succ, setTime_weekday]
    by_cases h : 5 ≤ weekday u
    · rw [if_pos h, if_pos h, succDay_setTime, setTime_setTime, ih]
    · rw [if_neg h, if_neg h]

theorem weekendLoopReset_exit (t : DateTime) (ht : Valid t) :
    weekday (weekendLoopReset 7 t) < 5 ∧ Valid (weekendLoopReset 7 t) ∧
      (weekendLoopReset 7 t = t ∨ (weekendLoopReset 7 t).hour = 9) ∧
      toLin t ≤ toLin (weekendLoopReset 7 t) ∧
      t.year ≤ (weekendLoopReset 7 t).year := by
  have hw7 := weekday_lt_7 t
  by_cases h0 : 5 ≤ weekday t
  · have hv1 : Valid (setTime (succDay t) 9) :=
      setTime_valid _ 9 (succDay_valid t ht) (by omega)
    have hw1 : weekday (setTime (succDay t) 9) = (weekday t + 1) % 7 := by
      rw [setTime_weekday, weekday_succDay t ht]
    have hlin1 : toLin t ≤ toLin (setTime (succDay t) 9) := toLin_le_setTime9_succDay t ht
    have hy1 : t.year ≤ (setTime (succDay t) 9).year := by
      rw [setTime_year]; exact succDay_year_le t
    rw [show (7 : Nat) = 6 + 1 from rfl, weekendLoopReset_succ, if_pos h0]
    by_cases h1 : 5 ≤ weekday (setTime (succDay t) 9)
    · have hw15 : weekday t = 5 := by omega
      have hv2 : Valid (setTime (succDay (setTime (succDay t) 9)) 9) :=
        setTime_valid _ 9 (succDay_valid _ hv1) (by omega)
      have hw2 : weekday (setTime (succDay (setTime (succDay t) 9)) 9) =
          (weekday (setTime (succDay t) 9) + 1) % 7 := by
        rw [setTime_weekday, weekday_succDay _ hv1]
      have hlin2 : toLin (setTime (succDay t) 9) ≤
          toLin (setTime (succDay (setTime (succDay t) 9)) 9) :=
        toLin_le_setTime9_succDay _ hv1
      have hy2 : (setTime (succDay t) 9).year ≤
          (setTime (succDay (setTime (succDay t) 9)) 9).year := by
        simp only [succDay_setTime, setTime_year]; exact succDay_year_le _
      rw [show (6 : Nat) = 5 + 1 from rfl, weekendLoopReset_succ, if_pos h1]
      have h2 : ¬ 5 ≤ weekday (setTime (succDay (setTime (succDay t) 9)) 9) := by omega
      rw [show (5 : Nat) = 4 + 1 from rfl, weekendLoopReset_succ, if_neg h2]
      refine ⟨by omega, hv2, Or.inr rfl, by omega, by omega⟩
    · rw [show (6 : Nat) = 5 + 1 from rfl, weekendLoopReset_succ, if_neg h1]
      refine ⟨by omega, hv1, Or.inr rfl, hlin1, hy1⟩
  · rw [show (7 : Nat) = 6 + 1 from rfl, weekendLoopReset_succ, if_neg h0]
    exact ⟨by omega, ht, Or.inl rfl, Nat.le_refl _, Nat.le_refl _⟩

theorem weekendSkip_exit (t : DateTime) (ht : Valid t) :
    weekday (weekendSkip 7 t) < 5 ∧ Valid (weekendSkip 7 t) ∧
      toOrdinal t ≤ toOrdinal (weekendSkip 7 t) ∧
      t.year ≤ (weekendSkip 7 t).year := by
  have hw7 := weekday_lt_7 t
  by_cases h0 : 5 ≤ weekday t
  · have hv1 : Valid (succDay t) := succDay_valid t ht
    have hw1 : weekday (succDay t) = (weekday t + 1) % 7 := weekday_succDay t ht
    have hord1 := toOrdinal_succDay t ht
    have hy1 := succDay_year_le t
    rw [show (7 : Nat) = 6 + 1 from rfl, weekendSkip_succ, if_pos h0]
    by_cases h1 : 5 ≤ weekday (succDay t)
    · have hv2 : Valid (succDay (succDay t)) := succDay_valid _ hv1
      have hw2 : weekday (succDay (succDay t)) = (weekday (succDay t) + 1) % 7 :=
        weekday_succDay _ hv1
      have hord2 := toOrdinal_succDay _ hv1
      have hy2 := succDay_year_le (succDay t)
      rw [show (6 : Nat) = 5 + 1 from rfl, weekendSkip_succ, if_pos h1]
      have h2 : ¬ 5 ≤ weekday (succDay (succDay t)) := by omega
      rw [show (5 : Nat) = 4 + 1 from rfl, weekendSkip_succ, if_neg h2]
      exact ⟨by omega, hv2, by omega, by omega⟩
    · rw [show (6 : Nat) = 5 + 1 from rfl, weekendSkip_succ, if_neg h1]
      exact ⟨by omega, hv1, by omega, hy1⟩
  · rw [show (7 : Nat) = 6 + 1 from rfl, weekendSkip_succ, if_neg h0]
    exact ⟨by omega, ht, Nat.le_refl _, Nat.le_refl _⟩

theorem clamp_to_working_hours_eq (t : DateTime) :
    clamp_to_working_hours t =
      (if (weekendLoopReset 7 t).hour < 9 then setTime (weekendLoopReset 7 t) 9
       else if 19 ≤ (weekendLoopReset 7 t).hour then
         setTime (weekendSkip 7 (succDay (weekendLoopReset 7 t))) 9
       else weekendLoopReset 7 t) := rfl

theorem clamp_business (t : DateTime) (ht : Valid t) :
    weekday (clamp_to_working_hours t) < 5 ∧
      9 ≤ (clamp_to_working_hours t).hour ∧
      (clamp_to_working_hours t).hour < 19 ∧
      Valid (clamp_to_working_hours t) := by
  obtain ⟨hwd, hv, hor, hlin, hy⟩ := weekendLoopReset_exit t ht
  rw [clamp_to_working_hours_eq]
  by_cases h1 : (weekendLoopReset 7 t).hour < 9
  · rw [if_pos h1]
    refine ⟨by rw [setTime_weekday]; exact hwd, ?_, ?_, setTime_valid _ 9 hv (by omega)⟩
    · rw [setTime_hour]
    · rw [setTime_hour]; omega
  · rw [if_neg h1]
    by_cases h2 : 19 ≤ (weekendLoopReset 7 t).hour
    · rw [if_pos h2]
      have hsv : Valid (succDay (weekendLoopReset 7 t)) := succDay_valid _ hv
      obtain ⟨hwd2, hv2, hord2, hy2⟩ := weekendSkip_exit _ hsv
      refine ⟨by rw [setTime_weekday]; exact hwd2, ?_, ?_, setTime_valid _ 9 hv2 (by omega)⟩
      · rw [setTime_hour]
      · rw [setTime_hour]; omega
    · rw [if_neg h2]
      exact ⟨hwd, by omega, by omega, hv⟩

theorem clamp_fixed (r : DateTime) (h1 : weekday r < 5) (h2 : 9 ≤ r.hour)
    (h3 : r.hour < 19) : clamp_to_working_hours r = r := by
  have hloop : weekendLoopReset 7 r = r := by
    rw [show (7 : Nat) = 6 + 1 from rfl, weekendLoopReset_succ, if_neg (by omega)]
  rw [clamp_to_working_hours_eq, hloop, if_neg (by omega), if_neg (by omega)]

theorem clamp_mono (t : DateTime) (ht : Valid t) :
    toLin t ≤ toLin (clamp_to_working_hours t) := by
  obtain ⟨hwd, hv, hor, hlin, hy⟩ := weekendLoopReset_exit t ht
  rw [clamp_to_working_hours_eq]
  by_cases h1 : (weekendLoopReset 7 t).hour < 9
  · rw [if_pos h1]
    have hstep : toLin (weekendLoopReset 7 t) ≤ toLin (setTime (weekendLoopReset 7 t) 9) := by
      unfold toLin
      rw [setTime_ordinal, todUs_setTime]
      have hb : todUs (weekendLoopReset 7 t) < 9 * usPerHour := by
        obtain ⟨_, _, _, _, _, hh6, hh7, hh8, hh9⟩ := hv
        unfold todUs usPerHour usPerMinute usPerSecond
        omega
      omega
    omega
  · rw [if_neg h1]
    by_cases h2 : 19 ≤ (weekendLoopReset 7 t).hour
    · rw [if_pos h2]
      have hsv : Valid (succDay (weekendLoopReset 7 t)) := succDay_valid _ hv
      obtain ⟨hwd2, hv2, hord2, hy2⟩ := weekendSkip_exit _ hsv
      have hordsucc := toOrdinal_succDay _ hv
      have htodu := todUs_lt _ hv
      have hres : toLin (setTime (weekendSkip 7 (succDay (weekendLoopReset 7 t))) 9) =
          toOrdinal (weekendSkip 7 (succDay (weekendLoopReset 7 t))) * usPerDay +
            9 * usPerHour := by
        unfold toLin
        rw [setTime_ordinal, todUs_setTime]
      rw [hres]
      unfold toLin at hlin ⊢
      unfold usPerDay usPerHour at *
      omega
    · rw [if_neg h2]
      exact hlin

theorem clamp_year_le (t : DateTime) (ht : Valid t) :
    t.year ≤ (clamp_to_working_hours t).year := by
  obtain ⟨hwd, hv, hor, hlin, hy⟩ := weekendLoopReset_exit t ht
  rw [clamp_to_working_hours_eq]
  by_cases h1 : (weekendLoopReset 7 t).hour < 9
  · rw [if_pos h1, setTime_year]; exact hy
  · rw [if_neg h1]
    by_cases h2 : 19 ≤ (weekendLoopReset 7 t).hour
    · rw [if_pos h2, setTime_year]
      have hsv : Valid (succDay (weekendLoopReset 7 t)) := succDay_valid _ hv
      obtain ⟨hwd2, hv2, hord2, hy2⟩ := weekendSkip_exit _ hsv
      have := succDay_year_le (weekendLoopReset 7 t)
      omega
    · rw [if_neg h2]; exact hy

end autointerviewbot

theorem pymk_ok (y mo d h mi s us : Nat) (v : DateTime)
    (hok : pymk y mo d h mi s us = Except.ok v) :
    v = ⟨y, mo, d, h, mi, s, us⟩ ∧ Valid v := by
  unfold pymk at hok
  split at hok
  · rename_i hv
    injection hok with h1
    subst h1
    exact ⟨rfl, hv⟩
  · cases hok

theorem pymk_valid_ok (y mo d h mi s us : Nat) (hv : Valid ⟨y, mo, d, h, mi, s, us⟩) :
    pymk y mo d h mi s us = Except.ok ⟨y, mo, d, h, mi, s, us⟩ := by
  unfold pymk
  rw [if_pos hv]

theorem pymk_invalid (y mo d h mi s us : Nat) (hv : ¬ Valid ⟨y, mo, d, h, mi, s, us⟩) :
    pymk y mo d h mi s us = Except.error PyErr.valueError := by
  unfold pymk
  rw [if_neg hv]

theorem daysInMonth_ne2 (y1 y2 m : Nat) (hm : m ≠ 2) (hm12 : m ≤ 12) :
    daysInMonth y1 m = daysInMonth y2 m := by
  interval_cases m <;> simp [daysInMonth] at *

theorem daysInMonth_2_le (y : Nat) : daysInMonth y 2 ≤ 29 := by
  show (if isLeap y then 29 else 28) ≤ 29
  cases isLeap y <;> simp

theorem valid2025_iff (u : DateTime) (hu : Valid u) :
    Valid ⟨2025, u.month, u.day, u.hour, u.minute, u.second, u.usec⟩ ↔
      ¬ (u.month = 2 ∧ u.day = 29) := by
  obtain ⟨h1, h2, h3, h4, h5, h6, h7, h8, h9⟩ := hu
  constructor
  · intro hv hc
    obtain ⟨hc1, hc2⟩ := hc
    obtain ⟨g1, g2, g3, g4, g5, g6, g7, g8, g9⟩ := hv
    dsimp only at g5
    rw [hc1, hc2] at g5
    have : daysInMonth 2025 2 = 28 := rfl
    omega
  · intro hc
    by_cases hm : u.month = 2
    · have hle := daysInMonth_2_le u.year
      have h28 : daysInMonth 2025 2 = 28 := rfl
      have hd29 : u.day ≠ 29 := fun hd => hc ⟨hm, hd⟩
      rw [hm] at h5
      refine ⟨?_, h2, h3, h4, ?_, h6, h7, h8, h9⟩
      · show (1 : Nat) ≤ 2025
        omega
      · show u.day ≤ daysInMonth 2025 u.month
        rw [hm, h28]
        omega
    · have heq := daysInMonth_ne2 2025 u.year u.month hm h3
      refine ⟨?_, h2, h3, h4, ?_, h6, h7, h8, h9⟩
      · show (1 : Nat) ≤ 2025
        omega
      · show u.day ≤ daysInMonth 2025 u.month
        omega

namespace autointerviewbot

theorem clamp_to_future_ok (now t r : DateTime)
    (h : clamp_to_future_2025 now t = Except.ok r) :
    toLin (virtualOf now) ≤ toLin r ∧ 2025 ≤ r.year ∧ (Valid t → Valid r) := by
  unfold clamp_to_future_2025 at h
  by_cases hy : t.year < 2025
  · rw [if_pos hy] at h
    split at h
    · cases h
    · rename_i t1 hp
      split at h
      · cases h
      · rename_i v hp2
        injection h with h1
        obtain ⟨hv1, hvv1⟩ := pymk_ok _ _ _ _ _ _ _ _ hp
        obtain ⟨hv2, hvv2⟩ := pymk_ok _ _ _ _ _ _ _ _ hp2
        have hveq : v = virtualOf now := by rw [hv2]; rfl
        subst h1
        subst hveq
        have hy1 : t1.year = 2025 := by rw [hv1]
        split
        · exact ⟨Nat.le_refl _, by rw [show (virtualOf now).year = 2025 from rfl], fun _ => hvv2⟩
        · rename_i hlt
          exact ⟨by omega, by omega, fun _ => hvv1⟩
  · rw [if_neg hy] at h
    split at h
    · cases h
    · rename_i t1 hp
      injection hp with hp1
      split at h
      · cases h
      · rename_i v hp2
        injection h with h1
        obtain ⟨hv2, hvv2⟩ := pymk_ok _ _ _ _ _ _ _ _ hp2
        have hveq : v = virtualOf now := by rw [hv2]; rfl
        subst h1
        subst hveq
        subst hp1
        split
        · exact ⟨Nat.le_refl _, by rw [show (virtualOf now).year = 2025 from rfl], fun _ => hvv2⟩
        · rename_i hlt
          exact ⟨by omega, by omega, fun hvt => hvt⟩

theorem clamp_to_future_error_iff (now t : DateTime) (ht : Valid t) (hn : Valid now) :
    (∃ e, clamp_to_future_2025 now t = Except.error e) ↔
      ((t.year < 2025 ∧ t.month = 2 ∧ t.day = 29) ∨
        (now.month = 2 ∧ now.day = 29)) := by
  by_cases hy : t.year < 2025
  · by_cases hm : t.month = 2 ∧ t.day = 29
    · have hnv : ¬ Valid ⟨2025, t.month, t.day, t.hour, t.minute, t.second, t.usec⟩ :=
        fun hv => ((valid2025_iff t ht).mp hv) hm
      have hp := pymk_invalid 2025 t.month t.day t.hour t.minute t.second t.usec hnv
      unfold clamp_to_future_2025
      rw [if_pos hy, hp]
      exact iff_of_true ⟨PyErr.valueError, rfl⟩ (Or.inl ⟨hy, hm.1, hm.2⟩)
    · have hvv : Valid ⟨2025, t.month, t.day, t.hour, t.minute, t.second, t.usec⟩ :=
        (valid2025_iff t ht).mpr hm
      have hp := pymk_valid_ok 2025 t.month t.day t.hour t.minute t.second t.usec hvv
      unfold clamp_to_future_2025
      rw [if_pos hy, hp]
      by_cases hn2 : now.month = 2 ∧ now.day = 29
      · have hp2 := pymk_invalid 2025 now.month now.day now.hour now.minute now.second
          now.usec (fun hv => ((valid2025_iff now hn).mp hv) hn2)
        rw [hp2]
        exact iff_of_true ⟨PyErr.valueError, rfl⟩ (Or.inr hn2)
      · have hp2 := pymk_valid_ok 2025 now.month now.day now.hour now.minute now.second
          now.usec ((valid2025_iff now hn).mpr hn2)
        rw [hp2]
        refine iff_of_false ?_ ?_
        · rintro ⟨e, he⟩
          simp at he
        · rintro (⟨hy2, hm1, hm2⟩ | h2)
          · exact hm ⟨hm1, hm2⟩
          · exact hn2 h2
  · unfold clamp_to_future_2025
    rw [if_neg hy]
    by_cases hn2 : now.month = 2 ∧ now.day = 29
    · have hp2 := pymk_invalid 2025 now.month now.day now.hour now.minute now.second
        now.usec (fun hv => ((valid2025_iff now hn).mp hv) hn2)
      rw [hp2]
      exact iff_of_true ⟨PyErr.valueError, rfl⟩ (Or.inr hn2)
    · have hp2 := pymk_valid_ok 2025 now.month now.day now.hour now.minute now.second
        now.usec ((valid2025_iff now hn).mpr hn2)
      rw [hp2]
      refine iff_of_false ?_ ?_
      · rintro ⟨e, he⟩
        simp at he
      · rintro (⟨hy2, hm1, hm2⟩ | h2)
        · exact hy hy2
        · exact hn2 h2

theorem clamp_to_future_keeps (now t : DateTime) (hy : ¬ t.year < 2025)
    (hp2 : pymk 2025 now.month now.day now.hour now.minute now.second now.usec =
      Except.ok (virtualOf now))
    (hge : ¬ toLin t < toLin (virtualOf now)) :
    clamp_to_future_2025 now t = Except.ok t := by
  unfold clamp_to_future_2025
  rw [if_neg hy, hp2]
  dsimp only
  rw [if_neg hge]

theorem findLoop_succ (service : Service) (now : DateTime) (fuel : Nat)
    (current : DateTime) :
    findLoop service now (fuel + 1) current =
      match clamp_to_future_2025 now current with
      | Except.error e => Except.error e
      | Except.ok c1 =>
        match is_slot_free_for_both service RECRUITER_EMAIL CANDIDATE_EMAIL
            (clamp_to_working_hours c1) (addHour (clamp_to_working_hours c1)) with
        | Except.error e => Except.error e
        | Except.ok free =>
          if free then Except.ok (some (clamp_to_working_hours c1))
          else findLoop service now fuel (addHour (clamp_to_working_hours c1)) := rfl

theorem findLoop_found (service : Service) (now : DateTime) (fuel : Nat)
    (current t : DateTime) (hc : Valid current)
    (h : findLoop service now fuel current = Except.ok (some t)) :
    weekday t < 5 ∧ 9 ≤ t.hour ∧ t.hour < 19 ∧ Valid t ∧
      toLin (virtualOf now) ≤ toLin t := by
  induction fuel generalizing current with
  | zero => cases h
  | succ n ih =>
    rw [findLoop_succ] at h
    split at h
    · cases h
    · rename_i c1 hcl
      obtain ⟨hge, hy25, hvimp⟩ := clamp_to_future_ok now current c1 hcl
      have hvc1 : Valid c1 := hvimp hc
      obtain ⟨hb1, hb2, hb3, hb4⟩ := clamp_business c1 hvc1
      split at h
      · cases h
      · rename_i free hfree
        split at h
        · injection h with h1
          injection h1 with h2
          subst h2
          have hmono := clamp_mono c1 hvc1
          exact ⟨hb1, hb2, hb3, hb4, by omega⟩
        · exact ih (addHour (clamp_to_working_hours c1)) (addHour_valid _ hb4) h

theorem findLoop_allbusy (service : Service) (now : DateTime) (hn : Valid now)
    (hnf : ¬ (now.month = 2 ∧ now.day = 29))
    (hb : ∀ em s e, ∃ l, service em s e = Except.ok l ∧ l.isEmpty = false) :
    ∀ fuel current, Valid current →
      ¬ (current.year < 2025 ∧ current.month = 2 ∧ current.day = 29) →
      findLoop service now fuel current = Except.ok none := by
  intro fuel
  induction fuel with
  | zero =>
    intro current _ _
    rfl
  | succ n ih =>
    intro current hc hc29
    rw [findLoop_succ]
    split
    · rename_i e hcl
      exfalso
      have hiff := (clamp_to_future_error_iff now current hc hn).mp ⟨e, hcl⟩
      tauto
    · rename_i c1 hcl
      obtain ⟨hge, hy25, hvimp⟩ := clamp_to_future_ok now current c1 hcl
      have hvc1 := hvimp hc
      obtain ⟨hb1, hb2, hb3, hb4⟩ := clamp_business c1 hvc1
      obtain ⟨l1, hl1, he1⟩ := hb RECRUITER_EMAIL (clamp_to_working_hours c1)
        (addHour (clamp_to_working_hours c1))
      obtain ⟨l2, hl2, he2⟩ := hb CANDIDATE_EMAIL (clamp_to_working_hours c1)
        (addHour (clamp_to_working_hours c1))
      have hfree : is_slot_free_for_both service RECRUITER_EMAIL CANDIDATE_EMAIL
          (clamp_to_working_hours c1) (addHour (clamp_to_working_hours c1)) =
          Except.ok false := by
        unfold is_slot_free_for_both get_busy_slots
        rw [hl1, hl2]
        dsimp only
        rw [he1]
        rfl
      rw [hfree]
      dsimp only
      rw [if_neg (by simp)]
      apply ih
      · exact addHour_valid _ hb4
      · have hy1 := clamp_year_le c1 hvc1
        have hy2 := addHour_year_le (clamp_to_working_hours c1)
        intro hcon
        omega

theorem is_slot_free_second_error (service : Service) (recruiter candidate : String)
    (s e : DateTime) (l : List (DateTime × DateTime)) (err : PyErr)
    (hr : service recruiter s e = Except.ok l)
    (hc : service candidate s e = Except.error err) :
    is_slot_free_for_both service recruiter candidate s e = Except.error err := by
  unfold is_slot_free_for_both get_busy_slots
  rw [hr, hc]

theorem is_slot_free_first_error (service : Service) (recruiter candidate : String)
    (s e : DateTime) (err : PyErr)
    (hr : service recruiter s e = Except.error err) :
    is_slot_free_for_both service recruiter candidate s e = Except.error err := by
  unfold is_slot_free_for_both get_busy_slots
  rw [hr]

theorem find_first_identity_error (service : Service) (now seed c1 : DateTime)
    (err : PyErr)
    (hcl : clamp_to_future_2025 now seed = Except.ok c1)
    (hr : ∀ s e, service RECRUITER_EMAIL s e = Except.error err) :
    find_first_free_slot service now seed = Except.error err := by
  have hfree : is_slot_free_for_both service RECRUITER_EMAIL CANDIDATE_EMAIL
      (clamp_to_working_hours c1) (addHour (clamp_to_working_hours c1)) =
      Except.error err :=
    is_slot_free_first_error service RECRUITER_EMAIL CANDIDATE_EMAIL _ _ err (hr _ _)
  unfold find_first_free_slot
  rw [show (3000 : Nat) = 2999 + 1 from rfl, findLoop_succ, hcl]
  dsimp only
  rw [hfree]

theorem find_second_identity_error (service : Service) (now seed c1 : DateTime)
    (err : PyErr)
    (hcl : clamp_to_future_2025 now seed = Except.ok c1)
    (hr : ∀ s e, ∃ l, service RECRUITER_EMAIL s e = Except.ok l)
    (hcnd : ∀ s e, service CANDIDATE_EMAIL s e = Except.error err) :
    find_first_free_slot service now seed = Except.error err := by
  obtain ⟨l, hl⟩ := hr (clamp_to_working_hours c1) (addHour (clamp_to_working_hours c1))
  have hfree : is_slot_free_for_both service RECRUITER_EMAIL CANDIDATE_EMAIL
      (clamp_to_working_hours c1) (addHour (clamp_to_working_hours c1)) =
      Except.error err :=
    is_slot_free_second_error service RECRUITER_EMAIL CANDIDATE_EMAIL _ _ l err hl
      (hcnd _ _)
  unfold find_first_free_slot
  rw [show (3000 : Nat) = 2999 + 1 from rfl, findLoop_succ, hcl]
  dsimp only
  rw [hfree]

theorem find_business_seed (service : Service) (now seed : DateTime)
    (hn : Valid now) (hs : Valid seed)
    (hw : weekday seed < 5) (hh1 : 9 ≤ seed.hour) (hh2 : seed.hour < 19)
    (hn29 : ¬ (now.month = 2 ∧ now.day = 29))
    (hge : toLin (virtualOf now) ≤ toLin seed)
    (hfree : ∀ em s e, service em s e = Except.ok []) :
    find_first_free_slot service now seed = Except.ok (some seed) := by
  have hvv : Valid (virtualOf now) := (valid2025_iff now hn).mpr hn29
  have hp2 : pymk 2025 now.month now.day now.hour now.minute now.second now.usec =
      Except.ok (virtualOf now) := pymk_valid_ok _ _ _ _ _ _ _ hvv
  have hy : ¬ seed.year < 2025 := by
    intro hlt
    have hv2025 : (virtualOf now).year = 2025 := rfl
    have hcon : toLin seed < toLin (virtualOf now) :=
      toLin_lt_of_year_lt seed (virtualOf now) hs hvv (by omega)
    omega
  have hcl : clamp_to_future_2025 now seed = Except.ok seed :=
    clamp_to_future_keeps now seed hy hp2 (by omega)
  have hcw : clamp_to_working_hours seed = seed := clamp_fixed seed hw hh1 hh2
  have hslot : is_slot_free_for_both service RECRUITER_EMAIL CANDIDATE_EMAIL seed
      (addHour seed) = Except.ok true := by
    unfold is_slot_free_for_both get_busy_slots
    rw [hfree, hfree]
    rfl
  unfold find_first_free_slot
  rw [show (3000 : Nat) = 2999 + 1 from rfl, findLoop_succ, hcl]
  dsimp only
  rw [hcw, hslot]
  rfl

end autointerviewbot

namespace textbasedbot

theorem zeroSub_lt_iff (t : DateTime) :
    toLin (zeroSub t) < toLin t ↔ ¬ (t.minute = 0 ∧ t.second = 0 ∧ t.usec = 0) := by
  unfold toLin toOrdinal todUs zeroSub
  dsimp only
  unfold usPerHour usPerMinute usPerSecond
  omega

theorem zeroSub_self (t : DateTime) (h : t.minute = 0 ∧ t.second = 0 ∧ t.usec = 0) :
    zeroSub t = t := by
  obtain ⟨h1, h2, h3⟩ := h
  unfold zeroSub
  cases t
  dsimp only at h1 h2 h3
  rw [h1, h2, h3]

theorem normalizeStart_eq_spec (t : DateTime) :
    normalizeStart t = specNormalizedStart t := by
  unfold normalizeStart specNormalizedStart
  by_cases h : t.minute = 0 ∧ t.second = 0 ∧ t.usec = 0
  · rw [if_neg (by rw [zeroSub_lt_iff]; exact fun hc => hc h), if_pos h, zeroSub_self t h]
  · rw [if_pos ((zeroSub_lt_iff t).mpr h), if_neg h]

theorem slotLoop_succ (service : Service) (candidate_end : DateTime) (fuel : Nat)
    (current : DateTime) :
    slotLoop service candidate_end (fuel + 1) current =
      (if toLin (addHour current) ≤ toLin candidate_end then
        match is_slot_free_for_both service RECRUITER_EMAIL CANDIDATE_EMAIL current
            (addHour current) with
        | Except.error e => Except.error e
        | Except.ok free =>
          if free then Except.ok (some (current, addHour current))
          else slotLoop service candidate_end fuel (addHour current)
      else Except.ok none) := rfl

theorem specRangeLoop_succ (service : Service) (rangeEnd : DateTime) (fuel : Nat)
    (current : DateTime) :
    specRangeLoop service rangeEnd (fuel + 1) current =
      (if toLin (addHour current) ≤ toLin rangeEnd then
        match is_slot_free_for_both service RECRUITER_EMAIL CANDIDATE_EMAIL current
            (addHour current) with
        | Except.error e => Except.error e
        | Except.ok free =>
          if free then Except.ok (some (current, addHour current))
          else specRangeLoop service rangeEnd fuel (addHour current)
      else Except.ok none) := rfl

theorem slotLoop_eq_spec (service : Service) (candidate_end : DateTime) :
    ∀ fuel current, slotLoop service candidate_end fuel current =
      specRangeLoop service candidate_end fuel current := by
  intro fuel
  induction fuel with
  | zero => intro current; rfl
  | succ n ih =>
    intro current
    rw [slotLoop_succ, specRangeLoop_succ]
    by_cases h : toLin (addHour current) ≤ toLin candidate_end
    · rw [if_pos h, if_pos h]
      cases hq : is_slot_free_for_both service RECRUITER_EMAIL CANDIDATE_EMAIL current
          (addHour current) with
      | error e => rfl
      | ok free =>
        cases free
        · dsimp only
          rw [if_neg (by simp), if_neg (by simp)]
          exact ih (addHour current)
        · rfl
    · rw [if_neg h, if_neg h]

theorem find_1hr_eq_rangeSearchSpec (service : Service)
    (candidate_start candidate_end : DateTime) :
    find_1hr_slot_within_range service candidate_start candidate_end =
      rangeSearchSpec service candidate_start candidate_end := by
  unfold find_1hr_slot_within_range rangeSearchSpec
  rw [normalizeStart_eq_spec, slotLoop_eq_spec]

theorem slotLoop_stable (service : Service) (candidate_end : DateTime) :
    ∀ fuel k current, Valid current →
      toLin candidate_end ≤ toLin current + fuel * usPerHour →
      slotLoop service candidate_end (fuel + k) current =
        slotLoop service candidate_end fuel current := by
  intro fuel
  induction fuel with
  | zero =>
    intro k current hv hb
    cases k with
    | zero => rfl
    | succ j =>
      have hstep := toLin_addHour current hv
      have hcond : ¬ toLin (addHour current) ≤ toLin candidate_end := by
        unfold usPerHour at *
        omega
      rw [show 0 + (j + 1) = j + 1 from by omega, slotLoop_succ, if_neg hcond]
      rfl
  | succ n ih =>
    intro k current hv hb
    have hstep := toLin_addHour current hv
    rw [show n + 1 + k = (n + k) + 1 from by omega, slotLoop_succ, slotLoop_succ]
    by_cases h : toLin (addHour current) ≤ toLin candidate_end
    · rw [if_pos h, if_pos h]
      cases hq : is_slot_free_for_both service RECRUITER_EMAIL CANDIDATE_EMAIL current
          (addHour current) with
      | error e => rfl
      | ok free =>
        cases free
        · dsimp only
          rw [if_neg (by simp), if_neg (by simp)]
          refine ih k (addHour current) (addHour_valid current hv) ?_
          have hexp : (n + 1) * usPerHour = n * usPerHour + usPerHour := by ring
          omega
        · rfl
    · rw [if_neg h, if_neg h]

theorem range_second_identity_error (service : Service)
    (candidate_start candidate_end : DateTime) (err : PyErr)
    (hin : toLin (addHour (normalizeStart candidate_start)) ≤ toLin candidate_end)
    (hr : ∀ s e, ∃ l, service RECRUITER_EMAIL s e = Except.ok l)
    (hcnd : ∀ s e, service CANDIDATE_EMAIL s e = Except.error err) :
    find_1hr_slot_within_range service candidate_start candidate_end =
      Except.error err := by
  obtain ⟨l, hl⟩ := hr (normalizeStart candidate_start)
    (addHour (normalizeStart candidate_start))
  have hfree : is_slot_free_for_both service RECRUITER_EMAIL CANDIDATE_EMAIL
      (normalizeStart candidate_start) (addHour (normalizeStart candidate_start)) =
      Except.error err := by
    unfold is_slot_free_for_both get_busy_slots
    rw [hl, hcnd]
  unfold find_1hr_slot_within_range hoursFuel
  rw [slotLoop_succ, if_pos hin, hfree]

theorem slot_free_second_error_range (service : Service) (recruiter candidate : String)
    (s e : DateTime) (l : List (DateTime × DateTime)) (err : PyErr)
    (hr : service recruiter s e = Except.ok l)
    (hc : service candidate s e = Except.error err) :
    is_slot_free_for_both service recruiter candidate s e = Except.error err := by
  unfold is_slot_free_for_both get_busy_slots
  rw [hr, hc]

theorem slot_free_first_error_range (service : Service) (recruiter candidate : String)
    (s e : DateTime) (err : PyErr)
    (hr : service recruiter s e = Except.error err) :
    is_slot_free_for_both service recruiter candidate s e = Except.error err := by
  unfold is_slot_free_for_both get_busy_slots
  rw [hr]

theorem range_first_identity_error (service : Service)
    (candidate_start candidate_end : DateTime) (err : PyErr)
    (hin : toLin (addHour (normalizeStart candidate_start)) ≤ toLin candidate_end)
    (hr : ∀ s e, service RECRUITER_EMAIL s e = Except.error err) :
    find_1hr_slot_within_range service candidate_start candidate_end =
      Except.error err := by
  have hfree : is_slot_free_for_both service RECRUITER_EMAIL CANDIDATE_EMAIL
      (normalizeStart candidate_start) (addHour (normalizeStart candidate_start)) =
      Except.error err :=
    slot_free_first_error_range service RECRUITER_EMAIL CANDIDATE_EMAIL _ _ err (hr _ _)
  unfold find_1hr_slot_within_range hoursFuel
  rw [slotLoop_succ, if_pos hin, hfree]

end textbasedbot

namespace autointerviewbot

theorem clamp_to_future_valueError_iff (now t : DateTime) (ht : Valid t) (hn : Valid now) :
    clamp_to_future_2025 now t = Except.error PyErr.valueError ↔
      ((t.year < 2025 ∧ t.month = 2 ∧ t.day = 29) ∨
        (now.month = 2 ∧ now.day = 29)) := by
  by_cases hy : t.year < 2025
  · by_cases hm : t.month = 2 ∧ t.day = 29
    · have hnv : ¬ Valid ⟨2025, t.month, t.day, t.hour, t.minute, t.second, t.usec⟩ :=
        fun hv => ((valid2025_iff t ht).mp hv) hm
      have hp := pymk_invalid 2025 t.month t.day t.hour t.minute t.second t.usec hnv
      unfold clamp_to_future_2025
      rw [if_pos hy, hp]
      exact iff_of_true rfl (Or.inl ⟨hy, hm.1, hm.2⟩)
    · have hvv : Valid ⟨2025, t.month, t.day, t.hour, t.minute, t.second, t.usec⟩ :=
        (valid2025_iff t ht).mpr hm
      have hp := pymk_valid_ok 2025 t.month t.day t.hour t.minute t.second t.usec hvv
      unfold clamp_to_future_2025
      rw [if_pos hy, hp]
      by_cases hn2 : now.month = 2 ∧ now.day = 29
      · have hp2 := pymk_invalid 2025 now.month now.day now.hour now.minute now.second
          now.usec (fun hv => ((valid2025_iff now hn).mp hv) hn2)
        rw [hp2]
        exact iff_of_true rfl (Or.inr hn2)
      · have hp2 := pymk_valid_ok 2025 now.month now.day now.hour now.minute now.second
          now.usec ((valid2025_iff now hn).mpr hn2)
        rw [hp2]
        refine iff_of_false ?_ ?_
        · intro he
          simp at he
        · rintro (⟨hy2, hm1, hm2⟩ | h2)
          · exact hm ⟨hm1, hm2⟩
          · exact hn2 h2
  · unfold clamp_to_future_2025
    rw [if_neg hy]
    by_cases hn2 : now.month = 2 ∧ now.day = 29
    · have hp2 := pymk_invalid 2025 now.month now.day now.hour now.minute now.second
        now.usec (fun hv => ((valid2025_iff now hn).mp hv) hn2)
      rw [hp2]
      exact iff_of_true rfl (Or.inr hn2)
    · have hp2 := pymk_valid_ok 2025 now.month now.day now.hour now.minute now.second
        now.usec ((valid2025_iff now hn).mpr hn2)
      rw [hp2]
      refine iff_of_false ?_ ?_
      · intro he
        simp at he
      · rintro (⟨hy2, hm1, hm2⟩ | h2)
        · exact hy hy2
        · exact hn2 h2

theorem specWeekendLoop_eq (fuel : Nat) :
    ∀ t, specWeekendLoop fuel t = weekendLoopReset fuel t := by
  induction fuel with
  | zero => intro t; rfl
  | succ n ih =>
    intro t
    show (if 5 ≤ weekday t then specWeekendLoop n (setTime (succDay t) 9) else t) =
      weekendLoopReset (n + 1) t
    rw [weekendLoopReset_succ, ih]

theorem clamp_eq_clampSpec (t : DateTime) (ht : Valid t) :
    clamp_to_working_hours t = clampSpec t := by
  obtain ⟨hwd, hv, hor, hlin, hy⟩ := weekendLoopReset_exit t ht
  unfold clampSpec
  simp only [specWeekendLoop_eq]
  rw [clamp_to_working_hours_eq]
  by_cases h0 : 5 ≤ weekday t
  · have h9 : (weekendLoopReset 7 t).hour = 9 := by
      rcases hor with he | h9
      · exfalso
        rw [he] at hwd
        omega
      · exact h9
    rw [if_pos h0, h9]
    rw [if_neg (by omega), if_neg (by omega)]
  · have he : weekendLoopReset 7 t = t := by
      rw [show (7 : Nat) = 6 + 1 from rfl, weekendLoopReset_succ, if_neg h0]
    rw [he, if_neg h0]
    by_cases h1 : t.hour < 9
    · rw [if_pos h1, if_pos h1]
    · rw [if_neg h1, if_neg h1]
      by_cases h2 : 19 ≤ t.hour
      · rw [if_pos h2, if_pos h2, weekendLoopReset_setTime]
      · rw [if_neg h2, if_neg h2]

end autointerviewbot

/-- C1 counterexample: with an all-busy oracle the claim promises the
explicit not-found result for every seed, but a seed of February 29 of a
pre-2025 leap year makes the future clamp raise ValueError before any
probing, so the search neither finds a slot nor returns None. -/
theorem claim1_counterexample :
    ¬ (∀ (service : Service) (now seed : DateTime),
        (∀ em s e, ∃ l, service em s e = Except.ok l ∧ l.isEmpty = false) →
        autointerviewbot.find_first_free_slot service now seed = Except.ok none) := by
  intro h
  have h2 := h allBusySvc now0 seedFeb (fun em s e => ⟨_, rfl, rfl⟩)
  have he : autointerviewbot.find_first_free_slot allBusySvc now0 seedFeb =
      Except.error PyErr.valueError := rfl
  rw [he] at h2
  exact Except.noConfusion h2

/-- C1 (amended): the seed-time search always terminates with a found slot,
the explicit not-found value, or a propagated error; and whenever the
future clamp cannot raise (the current date is not February 29 and the seed
is not February 29 of a pre-2025 year), an oracle that reports every probed
hour busy exhausts the budget of 3000 hourly advances and yields the normal
not-found result None, not an error. -/
theorem claim1_bounded_search :
    (∀ (service : Service) (now seed : DateTime),
        (∃ t, autointerviewbot.find_first_free_slot service now seed =
            Except.ok (some t)) ∨
          autointerviewbot.find_first_free_slot service now seed = Except.ok none ∨
          (∃ e, autointerviewbot.find_first_free_slot service now seed =
            Except.error e)) ∧
    (∀ (service : Service) (now seed : DateTime),
        Valid now → Valid seed →
        ¬ (now.month = 2 ∧ now.day = 29) →
        ¬ (seed.year < 2025 ∧ seed.month = 2 ∧ seed.day = 29) →
        (∀ em s e, ∃ l, service em s e = Except.ok l ∧ l.isEmpty = false) →
        autointerviewbot.find_first_free_slot service now seed = Except.ok none) := by
  constructor
  · intro service now seed
    cases h : autointerviewbot.find_first_free_slot service now seed with
    | error e => exact Or.inr (Or.inr ⟨e, rfl⟩)
    | ok o =>
      cases o with
      | none => exact Or.inr (Or.inl rfl)
      | some t => exact Or.inl ⟨t, rfl⟩
  · intro service now seed hn hs hn29 hs29 hb
    exact autointerviewbot.findLoop_allbusy service now hn hn29 hb 3000 seed hs hs29

/-- C2: the range-constrained search equals the reference description of
the spec (round the range start up to the next exact hour boundary when it
has a nonzero sub-hour component, then probe hour-aligned slots in
increasing order while current + 1 hour fits, returning the first free slot
and None otherwise, with no clamping); and a 14:07 range start makes 15:00
the first probed slot. -/
theorem claim2_range_search_refines_spec :
    (∀ (service : Service) (rangeStart rangeEnd : DateTime),
        textbasedbot.find_1hr_slot_within_range service rangeStart rangeEnd =
          textbasedbot.rangeSearchSpec service rangeStart rangeEnd) ∧
    textbasedbot.normalizeStart ⟨2025, 3, 24, 14, 7, 0, 0⟩ =
      ⟨2025, 3, 24, 15, 0, 0, 0⟩ := by
  constructor
  · intro service rangeStart rangeEnd
    exact textbasedbot.find_1hr_eq_rangeSearchSpec service rangeStart rangeEnd
  · rfl

/-- C3: clamp_to_working_hours equals the reference case split of spec
section 4.1 on every valid timestamp (weekend loop with 09:00 reset, then
the before-9 lift on the same day, then the at-or-after-19 rollover to the
next day at 09:00 with the weekend skip re-applied, else unchanged; exactly
19:00 rolls over and exactly 09:00 is unchanged since the conditions are
hour >= 19 and hour < 9). -/
theorem claim3_clamp_matches_spec (t : DateTime) (ht : Valid t) :
    autointerviewbot.clamp_to_working_hours t = autointerviewbot.clampSpec t :=
  autointerviewbot.clamp_eq_clampSpec t ht

/-- C4: whenever clamp_to_future_2025 returns normally, the returned value
is never earlier than the current moment re-anchored to the reference year
2025 (the floor built from the real now, preserving month, day, hour,
minute, second, microsecond). -/
theorem claim4_clamp_future_floor (now t r : DateTime)
    (h : autointerviewbot.clamp_to_future_2025 now t = Except.ok r) :
    toLin (virtualOf now) ≤ toLin r :=
  (autointerviewbot.clamp_to_future_ok now t r h).1

/-- Witness for C4 at a concrete stale seed, which the clamp lifts to the
re-anchored now. -/
theorem claim4_clamp_future_floor_witness :
    toLin (virtualOf now0) ≤ toLin now0 :=
  claim4_clamp_future_floor now0 seedBiz now0 rfl

/-- C5 counterexample: a seed inside business hours is not returned
unchanged by the all-free search when it lies before the current moment
re-anchored to 2025 — the future clamp moves it forward first, so the
returned slot start differs from the seed. -/
theorem claim5_counterexample :
    ¬ (∀ (service : Service) (now seed : DateTime),
        weekday seed < 5 → 9 ≤ seed.hour → seed.hour < 19 →
        (∀ em s e, service em s e = Except.ok []) →
        autointerviewbot.find_first_free_slot service now seed =
          Except.ok (some seed)) := by
  intro h
  have h2 := h allFreeSvc now0 seedBiz (by decide) (by decide) (by decide)
    (fun _ _ _ => rfl)
  have he : autointerviewbot.find_first_free_slot allFreeSvc now0 seedBiz =
      Except.ok (some now0) := rfl
  rw [he] at h2
  injection h2 with h3
  injection h3 with h4
  exact absurd h4 (by decide)

/-- C5 (amended): a seed inside business hours that moreover is not earlier
than the current moment re-anchored to 2025 (and a current date other than
February 29, so the floor construction cannot raise) is returned unchanged
by the seed-time search under an all-free oracle: the result is exactly the
slot starting at the seed. -/
theorem claim5_business_seed (service : Service) (now seed : DateTime)
    (hn : Valid now) (hs : Valid seed) (hw : weekday seed < 5)
    (hh1 : 9 ≤ seed.hour) (hh2 : seed.hour < 19)
    (hn29 : ¬ (now.month = 2 ∧ now.day = 29))
    (hge : toLin (virtualOf now) ≤ toLin seed)
    (hfree : ∀ em s e, service em s e = Except.ok []) :
    autointerviewbot.find_first_free_slot service now seed = Except.ok (some seed) :=
  autointerviewbot.find_business_seed service now seed hn hs hw hh1 hh2 hn29 hge hfree

/-- C6: every slot start the seed-time search returns as found satisfies
the business-hours constraints (Monday to Friday, hour in [9, 19)) and is
not earlier than the current moment re-anchored to 2025, for every oracle
behaviour and every valid seed, because both clamps are re-applied to the
candidate on every iteration before it is tested. -/
theorem claim6_found_slot_properties (service : Service) (now seed t : DateTime)
    (hs : Valid seed)
    (h : autointerviewbot.find_first_free_slot service now seed = Except.ok (some t)) :
    weekday t < 5 ∧ 9 ≤ t.hour ∧ t.hour < 19 ∧ toLin (virtualOf now) ≤ toLin t := by
  have hr := autointerviewbot.findLoop_found service now 3000 seed t hs h
  exact ⟨hr.1, hr.2.1, hr.2.2.1, hr.2.2.2.2⟩

/-- C7: in both search variants a failing busy-interval query for either
identity propagates its error unmodified and is never treated as that
identity being free: if the first (recruiter) query fails, the error
propagates at once whatever the candidate query would return; and if the
recruiter query succeeds and the candidate query fails, the error likewise
propagates — for the combined freeness check and for both searches (the
range variant provided its loop probes at least one slot). -/
theorem claim7_query_error_propagates :
    (∀ (service : Service) (recruiter candidate : String) (s e : DateTime)
        (err : PyErr),
        service recruiter s e = Except.error err →
        autointerviewbot.is_slot_free_for_both service recruiter candidate s e =
          Except.error err) ∧
    (∀ (service : Service) (recruiter candidate : String) (s e : DateTime)
        (l : List (DateTime × DateTime)) (err : PyErr),
        service recruiter s e = Except.ok l →
        service candidate s e = Except.error err →
        autointerviewbot.is_slot_free_for_both service recruiter candidate s e =
          Except.error err) ∧
    (∀ (service : Service) (recruiter candidate : String) (s e : DateTime)
        (err : PyErr),
        service recruiter s e = Except.error err →
        textbasedbot.is_slot_free_for_both service recruiter candidate s e =
          Except.error err) ∧
    (∀ (service : Service) (recruiter candidate : String) (s e : DateTime)
        (l : List (DateTime × DateTime)) (err : PyErr),
        service recruiter s e = Except.ok l →
        service candidate s e = Except.error err →
        textbasedbot.is_slot_free_for_both service recruiter candidate s e =
          Except.error err) ∧
    (∀ (service : Service) (now seed c1 : DateTime) (err : PyErr),
        autointerviewbot.clamp_to_future_2025 now seed = Except.ok c1 →
        (∀ s e, service autointerviewbot.RECRUITER_EMAIL s e = Except.error err) →
        autointerviewbot.find_first_free_slot service now seed = Except.error err) ∧
    (∀ (service : Service) (now seed c1 : DateTime) (err : PyErr),
        autointerviewbot.clamp_to_future_2025 now seed = Except.ok c1 →
        (∀ s e, ∃ l, service autointerviewbot.RECRUITER_EMAIL s e = Except.ok l) →
        (∀ s e, service autointerviewbot.CANDIDATE_EMAIL s e = Except.error err) →
        autointerviewbot.find_first_free_slot service now seed = Except.error err) ∧
    (∀ (service : Service) (rangeStart rangeEnd : DateTime) (err : PyErr),
        toLin (addHour (textbasedbot.normalizeStart rangeStart)) ≤ toLin rangeEnd →
        (∀ s e, service textbasedbot.RECRUITER_EMAIL s e = Except.error err) →
        textbasedbot.find_1hr_slot_within_range service rangeStart rangeEnd =
          Except.error err) ∧
    (∀ (service : Service) (rangeStart rangeEnd : DateTime) (err : PyErr),
        toLin (addHour (textbasedbot.normalizeStart rangeStart)) ≤ toLin rangeEnd →
        (∀ s e, ∃ l, service textbasedbot.RECRUITER_EMAIL s e = Except.ok l) →
        (∀ s e, service textbasedbot.CANDIDATE_EMAIL s e = Except.error err) →
        textbasedbot.find_1hr_slot_within_range service rangeStart rangeEnd =
          Except.error err) :=
  ⟨fun sv r c s e err hr =>
      autointerviewbot.is_slot_free_first_error sv r c s e err hr,
   fun sv r c s e l err hr hc =>
      autointerviewbot.is_slot_free_second_error sv r c s e l err hr hc,
   fun sv r c s e err hr =>
      textbasedbot.slot_free_first_error_range sv r c s e err hr,
   fun sv r c s e l err hr hc =>
      textbasedbot.slot_free_second_error_range sv r c s e l err hr hc,
   fun sv now seed c1 err hcl hr =>
      autointerviewbot.find_first_identity_error sv now seed c1 err hcl hr,
   fun sv now seed c1 err hcl hr hcnd =>
      autointerviewbot.find_second_identity_error sv now seed c1 err hcl hr hcnd,
   fun sv rangeStart rangeEnd err hin hr =>
      textbasedbot.range_first_identity_error sv rangeStart rangeEnd err hin hr,
   fun sv rangeStart rangeEnd err hin hr hcnd =>
      textbasedbot.range_second_identity_error sv rangeStart rangeEnd err hin hr hcnd⟩

/-- C8: clamp_to_working_hours is idempotent on every valid timestamp:
clamping an already clamped value is a no-op, so it is safe to re-apply on
every search iteration. -/
theorem claim8_clamp_idempotent (t : DateTime) (ht : Valid t) :
    autointerviewbot.clamp_to_working_hours (autointerviewbot.clamp_to_working_hours t) =
      autointerviewbot.clamp_to_working_hours t := by
  obtain ⟨h1, h2, h3, h4⟩ := autointerviewbot.clamp_business t ht
  exact autointerviewbot.clamp_fixed _ h1 h2 h3

/-- C9: clamp_to_working_hours never moves a valid timestamp backward in
time: each adjustment branch only yields a time at or after the input. -/
theorem claim9_clamp_never_backward (t : DateTime) (ht : Valid t) :
    toLin t ≤ toLin (autointerviewbot.clamp_to_working_hours t) :=
  autointerviewbot.clamp_mono t ht

/-- C10: clamp_to_future_2025 is not total: on valid inputs it raises
ValueError exactly when the argument is February 29 of a pre-2025 (hence
leap) year, which makes replace(year=2025) fail, or when the real current
date is February 29, which makes the year-2025 floor construction fail; on
every other input it returns normally. -/
theorem claim10_clamp_future_partiality (now t : DateTime) (ht : Valid t)
    (hn : Valid now) :
    autointerviewbot.clamp_to_future_2025 now t = Except.error PyErr.valueError ↔
      ((t.year < 2025 ∧ t.month = 2 ∧ t.day = 29) ∨
        (now.month = 2 ∧ now.day = 29)) :=
  autointerviewbot.clamp_to_future_valueError_iff now t ht hn

/-- Witness for C1 at a concrete all-busy oracle and valid seed. -/
theorem claim1_bounded_search_witness :
    autointerviewbot.find_first_free_slot allBusySvc now0 seedBiz = Except.ok none :=
  claim1_bounded_search.2 allBusySvc now0 seedBiz (by decide) (by decide) (by decide)
    (by decide) (fun em s e => ⟨_, rfl, rfl⟩)

/-- Witness for C3 at a Saturday-evening timestamp. -/
theorem claim3_clamp_matches_spec_witness :
    Valid satEve ∧
      autointerviewbot.clamp_to_working_hours satEve = autointerviewbot.clampSpec satEve :=
  ⟨by decide, claim3_clamp_matches_spec satEve (by decide)⟩

/-- Witness for C5 at a Tuesday-morning seed after now0. -/
theorem claim5_business_seed_witness :
    autointerviewbot.find_first_free_slot allFreeSvc now0 seedTue =
      Except.ok (some seedTue) :=
  claim5_business_seed allFreeSvc now0 seedTue (by decide) (by decide) (by decide)
    (by decide) (by decide) (by decide) (by decide) (fun _ _ _ => rfl)

/-- Witness for C6 at a found slot of the all-free search. -/
theorem claim6_found_slot_properties_witness :
    weekday now0 < 5 ∧ 9 ≤ now0.hour ∧ now0.hour < 19 ∧
      toLin (virtualOf now0) ≤ toLin now0 :=
  claim6_found_slot_properties allFreeSvc now0 seedBiz now0 (by decide) rfl

/-- Witness for C7 at two concrete oracles, one erring on the recruiter
(first) query and one erring on the candidate (second) query only. -/
theorem claim7_query_error_propagates_witness :
    autointerviewbot.is_slot_free_for_both firstErrSvc
        autointerviewbot.RECRUITER_EMAIL autointerviewbot.CANDIDATE_EMAIL
        now0 (addHour now0) = Except.error PyErr.queryError ∧
    autointerviewbot.is_slot_free_for_both secondErrSvc
        autointerviewbot.RECRUITER_EMAIL autointerviewbot.CANDIDATE_EMAIL
        now0 (addHour now0) = Except.error PyErr.queryError ∧
    textbasedbot.is_slot_free_for_both firstErrSvc
        textbasedbot.RECRUITER_EMAIL textbasedbot.CANDIDATE_EMAIL
        now0 (addHour now0) = Except.error PyErr.queryError ∧
    textbasedbot.is_slot_free_for_both secondErrSvc
        textbasedbot.RECRUITER_EMAIL textbasedbot.CANDIDATE_EMAIL
        now0 (addHour now0) = Except.error PyErr.queryError ∧
    autointerviewbot.find_first_free_slot firstErrSvc now0 seedBiz =
      Except.error PyErr.queryError ∧
    autointerviewbot.find_first_free_slot secondErrSvc now0 seedBiz =
      Except.error PyErr.queryError ∧
    textbasedbot.find_1hr_slot_within_range firstErrSvc rs0 re0 =
      Except.error PyErr.queryError ∧
    textbasedbot.find_1hr_slot_within_range secondErrSvc rs0 re0 =
      Except.error PyErr.queryError :=
  ⟨claim7_query_error_propagates.1 firstErrSvc _ _ now0 (addHour now0)
      PyErr.queryError rfl,
   claim7_query_error_propagates.2.1 secondErrSvc _ _ now0 (addHour now0) []
      PyErr.queryError rfl rfl,
   claim7_query_error_propagates.2.2.1 firstErrSvc _ _ now0 (addHour now0)
      PyErr.queryError rfl,
   claim7_query_error_propagates.2.2.2.1 secondErrSvc _ _ now0 (addHour now0) []
      PyErr.queryError rfl rfl,
   claim7_query_error_propagates.2.2.2.2.1 firstErrSvc now0 seedBiz now0
      PyErr.queryError rfl (fun s e => rfl),
   claim7_query_error_propagates.2.2.2.2.2.1 secondErrSvc now0 seedBiz now0
      PyErr.queryError rfl (fun s e => ⟨[], rfl⟩) (fun s e => rfl),
   claim7_query_error_propagates.2.2.2.2.2.2.1 firstErrSvc rs0 re0
      PyErr.queryError (by decide) (fun s e => rfl),
   claim7_query_error_propagates.2.2.2.2.2.2.2 secondErrSvc rs0 re0
      PyErr.queryError (by decide) (fun s e => ⟨[], rfl⟩) (fun s e => rfl)⟩

/-- Witness for C8 at a Saturday-evening timestamp. -/
theorem claim8_clamp_idempotent_witness :
    autointerviewbot.clamp_to_working_hours
        (autointerviewbot.clamp_to_working_hours satEve) =
      autointerviewbot.clamp_to_working_hours satEve :=
  claim8_clamp_idempotent satEve (by decide)

/-- Witness for C9 at a Saturday-evening timestamp. -/
theorem claim9_clamp_never_backward_witness :
    toLin satEve ≤ toLin (autointerviewbot.clamp_to_working_hours satEve) :=
  claim9_clamp_never_backward satEve (by decide)

/-- Witness for C10 at 2024-02-29. -/
theorem claim10_clamp_future_partiality_witness :
    autointerviewbot.clamp_to_future_2025 now0 seedFeb =
      Except.error PyErr.valueError :=
  (claim10_clamp_future_partiality now0 seedFeb (by decide) (by decide)).mpr
    (Or.inl (by decide))
